import Mathlib

/-!
Shallow embedding of `fastapi/security/http.py`: the HTTP
authentication-credential extractors (Basic, Bearer, Digest,
Basic-as-client-credentials), their shared Basic-auth decoding helper, and the
base64 decoding they rely on (`base64.b64decode` with `validate=False`, i.e.
CPython's non-strict `binascii.a2b_base64`).

Requests are modelled by their `Authorization` header value: `Option String`
(`none` = header absent).  A Python function that may `raise HTTPException`
and otherwise returns an optional value becomes
`Except HTTPException (Option _)`.
-/

def HTTP_401_UNAUTHORIZED : Nat := 401

def HTTP_403_FORBIDDEN : Nat := 403

/-- `fastapi.exceptions.HTTPException`, restricted to the fields the
extractors set: status code, detail string, optional response headers. -/
structure HTTPException where
  status_code : Nat
  detail : String
  headers : Option (List (String × String))
deriving DecidableEq

/-- `HTTPBasicCredentials` pydantic model. -/
structure HTTPBasicCredentials where
  username : String
  password : String
deriving DecidableEq

/-- `HTTPAuthorizationCredentials` pydantic model. -/
structure HTTPAuthorizationCredentials where
  scheme : String
  credentials : String
deriving DecidableEq

/-- `HTTPClientCredentials` pydantic model. -/
structure HTTPClientCredentials where
  client_id : String
  client_secret : String
deriving DecidableEq

deriving instance DecidableEq for Except

/-- Python truthiness of the `Authorization` header value
(`request.headers.get("Authorization")`): `None` and `""` are falsy. -/
def headerTruthy : Option String → Bool
  | none => false
  | some s => !s.data.isEmpty

/-- Modelled from the spec: `get_authorization_scheme_param` lives in
`fastapi/security/utils.py`, which is not among the sources.  Spec §4.1
describes its contract: split the raw header value on the first run of
whitespace into a scheme token and a parameter string (everything after the
first whitespace run, embedded whitespace preserved), never raising; an
absent or empty header splits into two empty strings. -/
def get_authorization_scheme_param (authorization : Option String) :
    String × String :=
  match authorization with
  | none => ("", "")
  | some s =>
    let scheme := s.data.takeWhile (fun c => !c.isWhitespace)
    let rest :=
      (s.data.dropWhile (fun c => !c.isWhitespace)).dropWhile
        (fun c => c.isWhitespace)
    (String.mk scheme, String.mk rest)

/-- Python `str.lower()` restricted to ASCII case mapping (the scheme names
compared against are pure ASCII), as a structurally reducing function. -/
def strLower (s : String) : String :=
  String.mk (s.data.map Char.toLower)

/-- Value of a character in the standard base64 alphabet
(`table_a2b_base64` in CPython's `binascii`). -/
def b64val (c : Char) : Option Nat :=
  if 65 ≤ c.toNat ∧ c.toNat ≤ 90 then some (c.toNat - 65)
  else if 97 ≤ c.toNat ∧ c.toNat ≤ 122 then some (c.toNat - 97 + 26)
  else if 48 ≤ c.toNat ∧ c.toNat ≤ 57 then some (c.toNat - 48 + 52)
  else if c = '+' then some 62
  else if c = '/' then some 63
  else none

/-- Character of a 6-bit value in the standard base64 alphabet. -/
def b64chr (n : Nat) : Char :=
  if n < 26 then Char.ofNat (65 + n)
  else if n < 52 then Char.ofNat (97 + (n - 26))
  else if n < 62 then Char.ofNat (48 + (n - 52))
  else if n = 62 then '+'
  else '/'

/-- CPython `binascii.a2b_base64` main loop in non-strict mode: characters
outside the alphabet are discarded; `=` is padding; a quad position of 1 at
the end, or of 2/3 without enough padding, is an error (`none`).  State:
current character list, `quadPos`, `leftchar`, `pads`, accumulated bytes. -/
def a2b_aux : List Char → Nat → Nat → Nat → List Nat → Option (List Nat)
  | [], 0, _, _, acc => some acc
  | [], _ + 1, _, _, _ => none
  | c :: cs, quadPos, leftchar, pads, acc =>
    if c = '=' then
      if 2 ≤ quadPos ∧ 4 ≤ quadPos + (pads + 1) then some acc
      else a2b_aux cs quadPos leftchar (if 2 ≤ quadPos then pads + 1 else pads) acc
    else
      match b64val c with
      | none => a2b_aux cs quadPos leftchar pads acc
      | some v =>
        match quadPos with
        | 0 => a2b_aux cs 1 v 0 acc
        | 1 => a2b_aux cs 2 (v % 16) 0 (acc ++ [leftchar * 4 + v / 16])
        | 2 => a2b_aux cs 3 (v % 4) 0 (acc ++ [leftchar * 16 + v / 4])
        | _ + 3 => a2b_aux cs 0 0 0 (acc ++ [leftchar * 64 + v])

/-- `binascii.a2b_base64` (non-strict) on an ASCII character sequence. -/
def a2b_base64 (cs : List Char) : Option (List Nat) :=
  a2b_aux cs 0 0 0 []

/-- `base64.b64decode` on a `str` argument: `_bytes_from_decode_data`
ASCII-encodes the string (`ValueError` on a non-ASCII character, modelled as
`none`), then runs `a2b_base64`. -/
def b64decode (s : String) : Option (List Nat) :=
  if s.data.all (fun c => c.toNat < 128) then a2b_base64 s.data else none

/-- `bytes.decode("ascii")`: every byte must be < 128
(`UnicodeDecodeError` otherwise, modelled as `none`). -/
def bytesDecodeAscii (bs : List Nat) : Option (List Char) :=
  if bs.all (fun b => b < 128) then some (bs.map Char.ofNat) else none

/-- `str.partition(":")` restricted to what the code observes: `none` when no
separator occurs (`if not separator: raise ...`), otherwise the pieces before
and after the first `:`. -/
def partitionColon : List Char → Option (List Char × List Char)
  | [] => none
  | c :: cs =>
    if c = ':' then some ([], cs)
    else (partitionColon cs).map (fun p => (c :: p.1, p.2))

/-- The `WWW-Authenticate` challenge computed at the top of
`get_http_basic_authorization_credentials`: `if self.realm:` is Python
truthiness, so an absent or empty realm yields plain `Basic`. -/
def wwwAuthHeaders (realm : Option String) : List (String × String) :=
  match realm with
  | some r =>
    if r = "" then [("WWW-Authenticate", "Basic")]
    else [("WWW-Authenticate", "Basic realm=\"" ++ r ++ "\"")]
  | none => [("WWW-Authenticate", "Basic")]

/-- `HTTPBase.get_http_basic_authorization_credentials` from
`fastapi/security/http.py`: the shared Basic-auth decoding path. -/
def get_http_basic_authorization_credentials (realm : Option String)
    (auto_error : Bool) (header : Option String) :
    Except HTTPException (Option (String × String)) :=
  let sp := get_authorization_scheme_param header
  let scheme := sp.1
  let param := sp.2
  let unauthorized_headers := wwwAuthHeaders realm
  let invalid_user_credentials_exc : HTTPException :=
    ⟨HTTP_401_UNAUTHORIZED, "Invalid authentication credentials",
      some unauthorized_headers⟩
  if headerTruthy header = false ∨ strLower scheme ≠ "basic" then
    if auto_error then
      .error ⟨HTTP_401_UNAUTHORIZED, "Not authenticated",
        some unauthorized_headers⟩
    else .ok none
  else
    match b64decode param with
    | none => .error invalid_user_credentials_exc
    | some bs =>
      match bytesDecodeAscii bs with
      | none => .error invalid_user_credentials_exc
      | some data =>
        match partitionColon data with
        | none => .error invalid_user_credentials_exc
        | some (first_credential, second_credential) =>
          .ok (some (String.mk first_credential, String.mk second_credential))

/-- `HTTPBase.__call__`: the configured scheme name is stored in the model
but never consulted. -/
def HTTPBase.call (scheme_cfg : String) (auto_error : Bool)
    (header : Option String) :
    Except HTTPException (Option HTTPAuthorizationCredentials) :=
  let _ := scheme_cfg
  let sp := get_authorization_scheme_param header
  if headerTruthy header = false ∨ sp.1 = "" ∨ sp.2 = "" then
    if auto_error then
      .error ⟨HTTP_403_FORBIDDEN, "Not authenticated", none⟩
    else .ok none
  else .ok (some ⟨sp.1, sp.2⟩)

/-- `HTTPBasic.__call__`. -/
def HTTPBasic.call (realm : Option String) (auto_error : Bool)
    (header : Option String) :
    Except HTTPException (Option HTTPBasicCredentials) :=
  match get_http_basic_authorization_credentials realm auto_error header with
  | .error e => .error e
  | .ok none => .ok none
  | .ok (some (u, p)) => .ok (some ⟨u, p⟩)

/-- `HTTPBasicClientCredentials.__call__`. -/
def HTTPBasicClientCredentials.call (realm : Option String) (auto_error : Bool)
    (header : Option String) :
    Except HTTPException (Option HTTPClientCredentials) :=
  match get_http_basic_authorization_credentials realm auto_error header with
  | .error e => .error e
  | .ok none => .ok none
  | .ok (some (cid, cs)) => .ok (some ⟨cid, cs⟩)

/-- `HTTPBearer.__call__`. -/
def HTTPBearer.call (auto_error : Bool) (header : Option String) :
    Except HTTPException (Option HTTPAuthorizationCredentials) :=
  let sp := get_authorization_scheme_param header
  if headerTruthy header = false ∨ sp.1 = "" ∨ sp.2 = "" then
    if auto_error then
      .error ⟨HTTP_403_FORBIDDEN, "Not authenticated", none⟩
    else .ok none
  else if strLower sp.1 ≠ "bearer" then
    if auto_error then
      .error ⟨HTTP_403_FORBIDDEN, "Invalid authentication credentials", none⟩
    else .ok none
  else .ok (some ⟨sp.1, sp.2⟩)

/-- `HTTPDigest.__call__`: note the scheme-mismatch branch raises without
consulting `auto_error`. -/
def HTTPDigest.call (auto_error : Bool) (header : Option String) :
    Except HTTPException (Option HTTPAuthorizationCredentials) :=
  let sp := get_authorization_scheme_param header
  if headerTruthy header = false ∨ sp.1 = "" ∨ sp.2 = "" then
    if auto_error then
      .error ⟨HTTP_403_FORBIDDEN, "Not authenticated", none⟩
    else .ok none
  else if strLower sp.1 ≠ "digest" then
    .error ⟨HTTP_403_FORBIDDEN, "Invalid authentication credentials", none⟩
  else .ok (some ⟨sp.1, sp.2⟩)

/-- `base64.b64encode` on a byte list (used to state the round-trip
property): three bytes become four alphabet characters, a two-byte tail
becomes three characters plus `=`, a one-byte tail two characters plus
`==`. -/
def b64encodeBytes : List Nat → List Char
  | a :: b :: c :: rest =>
    b64chr (a / 4) :: b64chr (a % 4 * 16 + b / 16) ::
      b64chr (b % 16 * 4 + c / 64) :: b64chr (c % 64) :: b64encodeBytes rest
  | [a, b] =>
    [b64chr (a / 4), b64chr (a % 4 * 16 + b / 16), b64chr (b % 16 * 4), '=']
  | [a] => [b64chr (a / 4), b64chr (a % 4 * 16), '=', '=']
  | [] => []

/-- Bytes of an ASCII string. -/
def strBytes (s : String) : List Nat :=
  s.data.map Char.toNat

/-- `base64.b64encode` of an (ASCII) string, as a string. -/
def b64encodeStr (s : String) : String :=
  String.mk (b64encodeBytes (strBytes s))

/-- The code path of `get_http_basic_authorization_credentials` after a
matching scheme: `true` iff the param is rejected (bad base64, non-ASCII
decoded bytes, or no `:` separator). -/
def basicParamMalformed (p : String) : Bool :=
  match b64decode p with
  | none => true
  | some bs =>
    match bytesDecodeAscii bs with
    | none => true
    | some data => (partitionColon data).isNone

/-- Status code of a raised failure, if the outcome is a failure. -/
def errStatus {α : Type} : Except HTTPException α → Option Nat
  | .error e => some e.status_code
  | .ok _ => none


/-! Helper lemmas shared by several claims. -/

/-- A matching Basic scheme with a malformed param always produces the single
invalid-credentials failure, whatever `auto_error` is. -/
theorem basic_malformed_invalid (realm : Option String) (auto_error : Bool)
    (header : Option String)
    (h1 : headerTruthy header = true)
    (h2 : strLower (get_authorization_scheme_param header).1 = "basic")
    (h3 : basicParamMalformed (get_authorization_scheme_param header).2 = true) :
    get_http_basic_authorization_credentials realm auto_error header =
      .error ⟨HTTP_401_UNAUTHORIZED, "Invalid authentication credentials",
        some (wwwAuthHeaders realm)⟩ := by
  unfold basicParamMalformed at h3
  simp only [get_http_basic_authorization_credentials]
  rw [if_neg (by simp [h1, h2])]
  split
  · rfl
  · rename_i bs hb
    split
    · rfl
    · rename_i data ha
      split
      · rfl
      · rename_i f s hp
        simp [hb, ha, hp] at h3

/-- `HTTPBasic.__call__` fails exactly when the shared helper fails, with the
same exception. -/
theorem basicCall_error_iff (realm : Option String) (auto_error : Bool)
    (header : Option String) (e : HTTPException) :
    HTTPBasic.call realm auto_error header = .error e ↔
      get_http_basic_authorization_credentials realm auto_error header =
        .error e := by
  unfold HTTPBasic.call
  cases hg : get_http_basic_authorization_credentials realm auto_error header with
  | error f => simp
  | ok v =>
    cases v with
    | none => simp
    | some p => obtain ⟨u, w⟩ := p; simp

/-- `HTTPBasicClientCredentials.__call__` fails exactly when the shared
helper fails, with the same exception. -/
theorem basicCCCall_error_iff (realm : Option String) (auto_error : Bool)
    (header : Option String) (e : HTTPException) :
    HTTPBasicClientCredentials.call realm auto_error header = .error e ↔
      get_http_basic_authorization_credentials realm auto_error header =
        .error e := by
  unfold HTTPBasicClientCredentials.call
  cases hg : get_http_basic_authorization_credentials realm auto_error header with
  | error f => simp
  | ok v =>
    cases v with
    | none => simp
    | some p => obtain ⟨u, w⟩ := p; simp

/-- Every failure of the shared Basic helper is a 401 carrying the
realm-dependent challenge header. -/
theorem basic_error_shape (realm : Option String) (auto_error : Bool)
    (header : Option String) (e : HTTPException)
    (h : get_http_basic_authorization_credentials realm auto_error header =
      .error e) :
    e.status_code = HTTP_401_UNAUTHORIZED ∧
      e.headers = some (wwwAuthHeaders realm) := by
  simp only [get_http_basic_authorization_credentials] at h
  split at h
  · split at h
    · cases h; exact ⟨rfl, rfl⟩
    · exact Except.noConfusion h
  · split at h
    · cases h; exact ⟨rfl, rfl⟩
    · split at h
      · cases h; exact ⟨rfl, rfl⟩
      · split at h
        · cases h; exact ⟨rfl, rfl⟩
        · exact Except.noConfusion h

/-! Claim theorems. -/

/-- C1 (counterexample): with `auto_error=true` and no `Authorization`
header, the Basic extractor fails with status 401 (Unauthorized), not the
claimed Forbidden (403). -/
theorem C1_counterexample :
    errStatus (HTTPBasic.call none true none) = some HTTP_401_UNAUTHORIZED ∧
      HTTP_401_UNAUTHORIZED ≠ HTTP_403_FORBIDDEN := by decide

/-- C1 (amended): with `auto_error=true` and no `Authorization` header,
Bearer and Digest fail with Forbidden (403) and detail "Not authenticated",
while Basic and BasicClientCredentials fail with the same detail but status
401 (Unauthorized) and a `WWW-Authenticate` Basic challenge. -/
theorem C1_no_header_auto_error (realm : Option String) :
    HTTPBearer.call true none =
      .error ⟨HTTP_403_FORBIDDEN, "Not authenticated", none⟩ ∧
    HTTPDigest.call true none =
      .error ⟨HTTP_403_FORBIDDEN, "Not authenticated", none⟩ ∧
    HTTPBasic.call realm true none =
      .error ⟨HTTP_401_UNAUTHORIZED, "Not authenticated",
        some (wwwAuthHeaders realm)⟩ ∧
    HTTPBasicClientCredentials.call realm true none =
      .error ⟨HTTP_401_UNAUTHORIZED, "Not authenticated",
        some (wwwAuthHeaders realm)⟩ := by
  refine ⟨by decide, by decide, ?_, ?_⟩ <;>
    simp [HTTPBasic.call, HTTPBasicClientCredentials.call,
      get_http_basic_authorization_credentials, headerTruthy]

/-- C3 (counterexample): header `"Digest abc"` on the Digest extractor does
not fail at all: the scheme matches, so it succeeds, for either
`auto_error` value. -/
theorem C3_counterexample :
    HTTPDigest.call true (some "Digest abc") = .ok (some ⟨"Digest", "abc"⟩) ∧
      errStatus (HTTPDigest.call true (some "Digest abc")) = none ∧
      errStatus (HTTPDigest.call false (some "Digest abc")) = none := by decide

/-- C3 (amended): header `"Digest abc"` on the Digest extractor succeeds,
returning the verbatim credential `{scheme "Digest", credentials "abc"}`,
for both `auto_error=true` and `auto_error=false`. -/
theorem C3_digest_abc_succeeds :
    HTTPDigest.call true (some "Digest abc") =
      .ok (some ⟨"Digest", "abc"⟩) ∧
    HTTPDigest.call false (some "Digest abc") =
      .ok (some ⟨"Digest", "abc"⟩) := by decide

/-- C4: on a present header whose scheme token is nonempty, param nonempty,
and scheme not case-insensitively "digest", the Digest extractor raises
Forbidden "Invalid authentication credentials" regardless of `auto_error`;
Bearer with `auto_error=false` instead returns an empty result on its own
scheme mismatch. -/
theorem C4_digest_mismatch_always_raises (auto_error : Bool)
    (header : Option String)
    (h1 : headerTruthy header = true)
    (h2 : (get_authorization_scheme_param header).1 ≠ "")
    (h3 : (get_authorization_scheme_param header).2 ≠ "")
    (h4 : strLower (get_authorization_scheme_param header).1 ≠ "digest") :
    HTTPDigest.call auto_error header =
      .error ⟨HTTP_403_FORBIDDEN, "Invalid authentication credentials",
        none⟩ ∧
    (strLower (get_authorization_scheme_param header).1 ≠ "bearer" →
      HTTPBearer.call false header = .ok none) := by
  constructor
  · simp [HTTPDigest.call, h1, h2, h3, h4]
  · intro h5
    simp [HTTPBearer.call, h1, h2, h3, h5]

/-- C4 (witness): header `"Other abc"` with `auto_error=false`. -/
theorem C4_witness :
    HTTPDigest.call false (some "Other abc") =
      .error ⟨HTTP_403_FORBIDDEN, "Invalid authentication credentials",
        none⟩ ∧
    HTTPBearer.call false (some "Other abc") = .ok none := by
  have h := C4_digest_mismatch_always_raises false (some "Other abc")
    (by decide) (by decide) (by decide) (by decide)
  exact ⟨h.1, h.2 (by decide)⟩

/-- C6: with `auto_error=false` and no `Authorization` header, every
extractor returns an empty result and raises nothing. -/
theorem C6_no_header_auto_error_false (realm : Option String)
    (scheme_cfg : String) :
    HTTPBase.call scheme_cfg false none = .ok none ∧
    HTTPBasic.call realm false none = .ok none ∧
    HTTPBasicClientCredentials.call realm false none = .ok none ∧
    HTTPBearer.call false none = .ok none ∧
    HTTPDigest.call false none = .ok none := by
  refine ⟨?_, ?_, ?_, by decide, by decide⟩ <;>
    simp [HTTPBase.call, HTTPBasic.call, HTTPBasicClientCredentials.call,
      get_http_basic_authorization_credentials, headerTruthy]

/-- C8: header `"Bearer testtoken"` on the Bearer extractor succeeds with
the verbatim scheme token and credentials, for either `auto_error` value. -/
theorem C8_bearer_testtoken :
    HTTPBearer.call true (some "Bearer testtoken") =
      .ok (some ⟨"Bearer", "testtoken"⟩) ∧
    HTTPBearer.call false (some "Bearer testtoken") =
      .ok (some ⟨"Bearer", "testtoken"⟩) := by decide

/-- C9: `HTTPBase.__call__` performs no scheme check: whenever the header is
present and splits into a nonempty scheme and nonempty param, it succeeds
with the verbatim pair, whatever scheme was configured. -/
theorem C9_base_no_scheme_check (scheme_cfg : String) (auto_error : Bool)
    (header : Option String)
    (h1 : headerTruthy header = true)
    (h2 : (get_authorization_scheme_param header).1 ≠ "")
    (h3 : (get_authorization_scheme_param header).2 ≠ "") :
    HTTPBase.call scheme_cfg auto_error header =
      .ok (some ⟨(get_authorization_scheme_param header).1,
        (get_authorization_scheme_param header).2⟩) := by
  simp [HTTPBase.call, h1, h2, h3]

/-- C9 (witness): a scheme "Other" that does not match the configured
"basic" is still accepted verbatim. -/
theorem C9_witness :
    HTTPBase.call "basic" true (some "Other xyz") =
      .ok (some ⟨"Other", "xyz"⟩) := by
  have h := C9_base_no_scheme_check "basic" true (some "Other xyz")
    (by decide) (by decide) (by decide)
  rw [h]; decide

/-- C2: whenever the scheme matches Basic but the param is malformed — bad
base64, non-text decoded bytes, or no `:` separator (`basicParamMalformed`
covers exactly these three causes) — the helper fails with the one fixed
Unauthorized/401 outcome, detail "Invalid authentication credentials", and
the Basic challenge header; in particular the detail differs from the
missing-credentials outcome and the result is never an empty success. -/
theorem C2_malformed_single_outcome (realm : Option String)
    (auto_error : Bool) (header : Option String)
    (h1 : headerTruthy header = true)
    (h2 : strLower (get_authorization_scheme_param header).1 = "basic")
    (h3 : basicParamMalformed (get_authorization_scheme_param header).2 =
      true) :
    get_http_basic_authorization_credentials realm auto_error header =
      .error ⟨HTTP_401_UNAUTHORIZED, "Invalid authentication credentials",
        some (wwwAuthHeaders realm)⟩ ∧
    "Invalid authentication credentials" ≠ "Not authenticated" :=
  ⟨basic_malformed_invalid realm auto_error header h1 h2 h3, by decide⟩

/-- C2 (witness): `"Basic a"` — a one-character base64 payload is rejected
by the base64 decoder. -/
theorem C2_witness :
    headerTruthy (some "Basic a") = true ∧
    strLower (get_authorization_scheme_param (some "Basic a")).1 = "basic" ∧
    basicParamMalformed
      (get_authorization_scheme_param (some "Basic a")).2 = true ∧
    get_http_basic_authorization_credentials none true (some "Basic a") =
      .error ⟨HTTP_401_UNAUTHORIZED, "Invalid authentication credentials",
        some [("WWW-Authenticate", "Basic")]⟩ := by
  refine ⟨by decide, by decide, by decide, ?_⟩
  have h := (C2_malformed_single_outcome none true (some "Basic a")
    (by decide) (by decide) (by decide)).1
  rw [h]; decide

/-- C10: with `auto_error=false`, a present header with a matching Basic
scheme but a malformed param still raises the invalid-credentials failure in
both Basic-family extractors — it is not converted to an empty result. -/
theorem C10_malformed_raises_without_auto_error (realm : Option String)
    (header : Option String)
    (h1 : headerTruthy header = true)
    (h2 : strLower (get_authorization_scheme_param header).1 = "basic")
    (h3 : basicParamMalformed (get_authorization_scheme_param header).2 =
      true) :
    HTTPBasic.call realm false header =
      .error ⟨HTTP_401_UNAUTHORIZED, "Invalid authentication credentials",
        some (wwwAuthHeaders realm)⟩ ∧
    HTTPBasicClientCredentials.call realm false header =
      .error ⟨HTTP_401_UNAUTHORIZED, "Invalid authentication credentials",
        some (wwwAuthHeaders realm)⟩ := by
  have h := basic_malformed_invalid realm false header h1 h2 h3
  constructor
  · exact (basicCall_error_iff realm false header _).mpr h
  · exact (basicCCCall_error_iff realm false header _).mpr h

/-- C10 (witness): `"Basic QUJD"` (base64 of `"ABC"`, which has no `:`)
with `auto_error=false` still raises against both extractors. -/
theorem C10_witness :
    HTTPBasic.call none false (some "Basic QUJD") =
      .error ⟨HTTP_401_UNAUTHORIZED, "Invalid authentication credentials",
        some [("WWW-Authenticate", "Basic")]⟩ ∧
    HTTPBasicClientCredentials.call none false (some "Basic QUJD") =
      .error ⟨HTTP_401_UNAUTHORIZED, "Invalid authentication credentials",
        some [("WWW-Authenticate", "Basic")]⟩ := by
  have h := C10_malformed_raises_without_auto_error none (some "Basic QUJD")
    (by decide) (by decide) (by decide)
  exact ⟨h.1.trans (by decide), h.2.trans (by decide)⟩

/-- C7 (counterexample): an extractor constructed with the (falsy) realm
`""` produces the plain `Basic` challenge, not `Basic realm=""` as the
claim's "whenever a realm was configured" reading requires. -/
theorem C7_counterexample :
    HTTPBasic.call (some "") true none =
      .error ⟨HTTP_401_UNAUTHORIZED, "Not authenticated",
        some [("WWW-Authenticate", "Basic")]⟩ ∧
      "Basic" ≠ "Basic realm=\"\"" := by decide

/-- C7 (amended): every failure raised by a Basic-family extractor is a 401
whose `WWW-Authenticate` value is `Basic realm="<realm>"` when a nonempty
realm was configured and plain `Basic` otherwise (no realm, or the empty
realm, which Python truthiness treats as unconfigured). -/
theorem C7_challenge_header (realm : Option String) (auto_error : Bool)
    (header : Option String) (e : HTTPException)
    (h : HTTPBasic.call realm auto_error header = .error e ∨
      HTTPBasicClientCredentials.call realm auto_error header = .error e) :
    e.status_code = HTTP_401_UNAUTHORIZED ∧
    e.headers = some [("WWW-Authenticate",
      match realm with
      | some r => if r = "" then "Basic" else "Basic realm=\"" ++ r ++ "\""
      | none => "Basic")] := by
  have hw : wwwAuthHeaders realm = [("WWW-Authenticate",
      match realm with
      | some r => if r = "" then "Basic" else "Basic realm=\"" ++ r ++ "\""
      | none => "Basic")] := by
    cases realm with
    | none => rfl
    | some r => by_cases hr : r = "" <;> simp [wwwAuthHeaders, hr]
  have hg : get_http_basic_authorization_credentials realm auto_error header =
      .error e := by
    rcases h with h | h
    · exact (basicCall_error_iff realm auto_error header e).mp h
    · exact (basicCCCall_error_iff realm auto_error header e).mp h
  have hs := basic_error_shape realm auto_error header e hg
  exact ⟨hs.1, hw ▸ hs.2⟩

/-- C7 (witness): realm `"myrealm"`, missing header, `auto_error=true`. -/
theorem C7_witness :
    (⟨HTTP_401_UNAUTHORIZED, "Not authenticated",
      some [("WWW-Authenticate", "Basic realm=\"myrealm\"")]⟩ :
        HTTPException).status_code = HTTP_401_UNAUTHORIZED ∧
    (⟨HTTP_401_UNAUTHORIZED, "Not authenticated",
      some [("WWW-Authenticate", "Basic realm=\"myrealm\"")]⟩ :
        HTTPException).headers =
      some [("WWW-Authenticate", "Basic realm=\"myrealm\"")] := by
  have h := C7_challenge_header (some "myrealm") true none
    ⟨HTTP_401_UNAUTHORIZED, "Not authenticated",
      some [("WWW-Authenticate", "Basic realm=\"myrealm\"")]⟩
    (Or.inl (by decide))
  exact ⟨h.1, h.2.trans (by decide)⟩

/-! Round-trip machinery for C5: decoding inverts encoding. -/

theorem char_ofNat_toNat (c : Char) : Char.ofNat c.toNat = c := by
  rcases c with ⟨⟨⟨n, hn⟩⟩, hv⟩
  simp only [Char.ofNat, Char.toNat]
  rw [dif_pos hv]
  rfl

theorem b64val_b64chr : ∀ n, n < 64 → b64val (b64chr n) = some n := by decide

theorem b64chr_ne_pad : ∀ n, n < 64 → b64chr n ≠ '=' := by decide

theorem b64chr_ascii : ∀ n, n < 64 → (b64chr n).toNat < 128 := by decide

theorem b64chr_not_ws : ∀ n, n < 64 → (b64chr n).isWhitespace = false := by
  decide

theorem a2b_step0 (c : Char) (v : Nat) (hne : c ≠ '=') (hv : b64val c = some v)
    (cs : List Char) (lc pads : Nat) (acc : List Nat) :
    a2b_aux (c :: cs) 0 lc pads acc = a2b_aux cs 1 v 0 acc := by
  simp only [a2b_aux, if_neg hne, hv]

theorem a2b_step1 (c : Char) (v : Nat) (hne : c ≠ '=') (hv : b64val c = some v)
    (cs : List Char) (lc pads : Nat) (acc : List Nat) :
    a2b_aux (c :: cs) 1 lc pads acc =
      a2b_aux cs 2 (v % 16) 0 (acc ++ [lc * 4 + v / 16]) := by
  simp only [a2b_aux, if_neg hne, hv]

theorem a2b_step2 (c : Char) (v : Nat) (hne : c ≠ '=') (hv : b64val c = some v)
    (cs : List Char) (lc pads : Nat) (acc : List Nat) :
    a2b_aux (c :: cs) 2 lc pads acc =
      a2b_aux cs 3 (v % 4) 0 (acc ++ [lc * 16 + v / 4]) := by
  simp only [a2b_aux, if_neg hne, hv]

theorem a2b_step3 (c : Char) (v : Nat) (hne : c ≠ '=') (hv : b64val c = some v)
    (cs : List Char) (lc pads : Nat) (acc : List Nat) :
    a2b_aux (c :: cs) 3 lc pads acc =
      a2b_aux cs 0 0 0 (acc ++ [lc * 64 + v]) := by
  simp only [a2b_aux, if_neg hne, hv]

theorem a2b_pad3 (cs : List Char) (lc : Nat) (acc : List Nat) :
    a2b_aux ('=' :: cs) 3 lc 0 acc = some acc := by
  simp only [a2b_aux]
  norm_num

theorem a2b_pad2_first (cs : List Char) (lc : Nat) (acc : List Nat) :
    a2b_aux ('=' :: cs) 2 lc 0 acc = a2b_aux cs 2 lc 1 acc := by
  simp only [a2b_aux]
  norm_num

theorem a2b_pad2_second (cs : List Char) (lc : Nat) (acc : List Nat) :
    a2b_aux ('=' :: cs) 2 lc 1 acc = some acc := by
  simp only [a2b_aux]
  norm_num

theorem a2b_quad (v1 v2 v3 v4 : Nat) (h1 : v1 < 64) (h2 : v2 < 64)
    (h3 : v3 < 64) (h4 : v4 < 64) (cs : List Char) (pads : Nat)
    (acc : List Nat) :
    a2b_aux (b64chr v1 :: b64chr v2 :: b64chr v3 :: b64chr v4 :: cs)
        0 0 pads acc =
      a2b_aux cs 0 0 0
        (acc ++ [v1 * 4 + v2 / 16, v2 % 16 * 16 + v3 / 4,
          v3 % 4 * 64 + v4]) := by
  rw [a2b_step0 _ _ (b64chr_ne_pad v1 h1) (b64val_b64chr v1 h1),
    a2b_step1 _ _ (b64chr_ne_pad v2 h2) (b64val_b64chr v2 h2),
    a2b_step2 _ _ (b64chr_ne_pad v3 h3) (b64val_b64chr v3 h3),
    a2b_step3 _ _ (b64chr_ne_pad v4 h4) (b64val_b64chr v4 h4)]
  simp [List.append_assoc]

/-- Decoding the encoding of any byte list appends exactly those bytes,
whatever residual `pads` state the decoder starts in. -/
theorem a2b_encodeBytes : ∀ (bs : List Nat), (∀ x ∈ bs, x < 256) →
    ∀ (pads : Nat) (acc : List Nat),
    a2b_aux (b64encodeBytes bs) 0 0 pads acc = some (acc ++ bs)
  | a :: b :: c :: rest, h, pads, acc => by
    have ha : a < 256 := h a (by simp)
    have hb : b < 256 := h b (by simp)
    have hc : c < 256 := h c (by simp)
    rw [b64encodeBytes,
      a2b_quad _ _ _ _ (by omega) (by omega) (by omega) (by omega)]
    have e1 : a / 4 * 4 + (a % 4 * 16 + b / 16) / 16 = a := by omega
    have e2 : (a % 4 * 16 + b / 16) % 16 * 16 + (b % 16 * 4 + c / 64) / 4 =
        b := by omega
    have e3 : (b % 16 * 4 + c / 64) % 4 * 64 + c % 64 = c := by omega
    rw [e1, e2, e3,
      a2b_encodeBytes rest (fun x hx => h x (by simp [hx])) 0 (acc ++ [a, b, c])]
    simp
  | [a, b], h, pads, acc => by
    have ha : a < 256 := h a (by simp)
    have hb : b < 256 := h b (by simp)
    rw [b64encodeBytes,
      a2b_step0 _ _ (b64chr_ne_pad _ (by omega)) (b64val_b64chr _ (by omega)),
      a2b_step1 _ _ (b64chr_ne_pad _ (by omega)) (b64val_b64chr _ (by omega)),
      a2b_step2 _ _ (b64chr_ne_pad _ (by omega)) (b64val_b64chr _ (by omega)),
      a2b_pad3]
    have e1 : a / 4 * 4 + (a % 4 * 16 + b / 16) / 16 = a := by omega
    have e2 : (a % 4 * 16 + b / 16) % 16 * 16 + b % 16 * 4 / 4 = b := by omega
    rw [e1, e2]
    simp
  | [a], h, pads, acc => by
    have ha : a < 256 := h a (by simp)
    rw [b64encodeBytes,
      a2b_step0 _ _ (b64chr_ne_pad _ (by omega)) (b64val_b64chr _ (by omega)),
      a2b_step1 _ _ (b64chr_ne_pad _ (by omega)) (b64val_b64chr _ (by omega)),
      a2b_pad2_first, a2b_pad2_second]
    have e1 : a / 4 * 4 + a % 4 * 16 / 16 = a := by omega
    rw [e1]
  | [], _, pads, acc => by
    rw [b64encodeBytes]
    simp [a2b_aux]

/-- Every character the encoder emits is ASCII and not whitespace. -/
theorem b64encodeBytes_chars : ∀ (bs : List Nat), (∀ x ∈ bs, x < 256) →
    ∀ c ∈ b64encodeBytes bs, c.toNat < 128 ∧ c.isWhitespace = false
  | a :: b :: c :: rest, h, d, hd => by
    have ha : a < 256 := h a (by simp)
    have hb : b < 256 := h b (by simp)
    have hc : c < 256 := h c (by simp)
    rw [b64encodeBytes] at hd
    simp only [List.mem_cons] at hd
    rcases hd with rfl | rfl | rfl | rfl | hd
    · exact ⟨b64chr_ascii _ (by omega), b64chr_not_ws _ (by omega)⟩
    · exact ⟨b64chr_ascii _ (by omega), b64chr_not_ws _ (by omega)⟩
    · exact ⟨b64chr_ascii _ (by omega), b64chr_not_ws _ (by omega)⟩
    · exact ⟨b64chr_ascii _ (by omega), b64chr_not_ws _ (by omega)⟩
    · exact b64encodeBytes_chars rest (fun x hx => h x (by simp [hx])) d hd
  | [a, b], h, d, hd => by
    have ha : a < 256 := h a (by simp)
    have hb : b < 256 := h b (by simp)
    rw [b64encodeBytes] at hd
    simp only [List.mem_cons, List.not_mem_nil, or_false] at hd
    rcases hd with rfl | rfl | rfl | rfl
    · exact ⟨b64chr_ascii _ (by omega), b64chr_not_ws _ (by omega)⟩
    · exact ⟨b64chr_ascii _ (by omega), b64chr_not_ws _ (by omega)⟩
    · exact ⟨b64chr_ascii _ (by omega), b64chr_not_ws _ (by omega)⟩
    · exact ⟨by decide, by decide⟩
  | [a], h, d, hd => by
    have ha : a < 256 := h a (by simp)
    rw [b64encodeBytes] at hd
    simp only [List.mem_cons, List.not_mem_nil, or_false] at hd
    rcases hd with rfl | rfl | rfl | rfl
    · exact ⟨b64chr_ascii _ (by omega), b64chr_not_ws _ (by omega)⟩
    · exact ⟨b64chr_ascii _ (by omega), b64chr_not_ws _ (by omega)⟩
    · exact ⟨by decide, by decide⟩
    · exact ⟨by decide, by decide⟩
  | [], _, d, hd => by rw [b64encodeBytes] at hd; exact absurd hd (by simp)

/-- `partition(":")` on `us ++ ":" ++ ps` with no colon in `us` splits at
that colon. -/
theorem partitionColon_append (us ps : List Char) (h : ':' ∉ us) :
    partitionColon (us ++ ':' :: ps) = some (us, ps) := by
  induction us with
  | nil => simp [partitionColon]
  | cons u ur ih =>
    have hu : u ≠ ':' := fun he => h (he ▸ List.mem_cons_self u ur)
    simp only [List.cons_append, partitionColon, List.append_eq]
    rw [if_neg hu, ih (fun hm => h (List.mem_cons_of_mem u hm))]
    rfl

/-- Splitting `"Basic " ++ payload` for a whitespace-free payload yields
scheme `"Basic"` and the payload. -/
theorem split_basic_space (cs : List Char)
    (h : ∀ c ∈ cs, c.isWhitespace = false) :
    get_authorization_scheme_param
        (some (String.mk ('B' :: 'a' :: 's' :: 'i' :: 'c' :: ' ' :: cs))) =
      ("Basic", String.mk cs) := by
  have htake : List.takeWhile (fun c => !c.isWhitespace)
      ('B' :: 'a' :: 's' :: 'i' :: 'c' :: ' ' :: cs) =
        ['B', 'a', 's', 'i', 'c'] := by
    rw [List.takeWhile_cons_of_pos (by decide),
      List.takeWhile_cons_of_pos (by decide),
      List.takeWhile_cons_of_pos (by decide),
      List.takeWhile_cons_of_pos (by decide),
      List.takeWhile_cons_of_pos (by decide),
      List.takeWhile_cons_of_neg (by decide)]
  have hdrop : List.dropWhile (fun c => !c.isWhitespace)
      ('B' :: 'a' :: 's' :: 'i' :: 'c' :: ' ' :: cs) = ' ' :: cs := by
    rw [List.dropWhile_cons_of_pos (by decide),
      List.dropWhile_cons_of_pos (by decide),
      List.dropWhile_cons_of_pos (by decide),
      List.dropWhile_cons_of_pos (by decide),
      List.dropWhile_cons_of_pos (by decide),
      List.dropWhile_cons_of_neg (by decide)]
  have hdrop2 : List.dropWhile (fun c => c.isWhitespace) (' ' :: cs) = cs := by
    rw [List.dropWhile_cons_of_pos (by decide)]
    cases cs with
    | nil => rfl
    | cons d ds =>
      rw [List.dropWhile_cons_of_neg
        (by simp [h d (List.mem_cons_self d ds)])]
  simp only [get_authorization_scheme_param]
  rw [htake, hdrop, hdrop2]

/-- Decoding the encoded string recovers the bytes. -/
theorem b64decode_encodeBytes (bs : List Nat) (h : ∀ x ∈ bs, x < 256) :
    b64decode (String.mk (b64encodeBytes bs)) = some bs := by
  have hall : (b64encodeBytes bs).all (fun c => c.toNat < 128) = true := by
    rw [List.all_eq_true]
    intro c hc
    simpa using (b64encodeBytes_chars bs h c hc).1
  show (if (b64encodeBytes bs).all (fun c => c.toNat < 128)
      then a2b_base64 (b64encodeBytes bs) else none) = some bs
  rw [if_pos hall]
  unfold a2b_base64
  exact (a2b_encodeBytes bs h 0 []).trans (by simp)

/-- ASCII-decoding the character-wise bytes of an ASCII character list is the
identity. -/
theorem bytesDecodeAscii_map (cs : List Char)
    (h : ∀ c ∈ cs, c.toNat < 128) :
    bytesDecodeAscii (cs.map Char.toNat) = some cs := by
  have hall : (cs.map Char.toNat).all (fun b => b < 128) = true := by
    rw [List.all_eq_true]
    intro b hb
    simp only [List.mem_map] at hb
    obtain ⟨c, hcm, rfl⟩ := hb
    simpa using h c hcm
  unfold bytesDecodeAscii
  rw [if_pos hall, List.map_map]
  exact congrArg some (List.map_id'' (fun c => char_ofNat_toNat c) cs)

/-- C5 (amended): for ASCII `user` and `pass` with no `:` in `user`,
base64-encoding `user ++ ":" ++ pass` and running it through the Basic-auth
decoding path round-trips to exactly `(user, pass)`, for every realm and
`auto_error` setting.  (The original claim over all strings fails: a `:`
inside `user` shifts the split, and non-ASCII text cannot survive the
`decode("ascii")` step.) -/
theorem C5_roundtrip_ascii (user pass : String) (realm : Option String)
    (auto_error : Bool)
    (hu : ∀ c ∈ user.data, c.toNat < 128)
    (hp : ∀ c ∈ pass.data, c.toNat < 128)
    (hcol : ':' ∉ user.data) :
    get_http_basic_authorization_credentials realm auto_error
        (some ("Basic " ++ b64encodeStr (user ++ ":" ++ pass))) =
      .ok (some (user, pass)) := by
  have hdata : (user ++ ":" ++ pass).data = user.data ++ ':' :: pass.data := by
    simp
  have hascii : ∀ c ∈ (user ++ ":" ++ pass).data, c.toNat < 128 := by
    rw [hdata]
    intro c hcm
    rcases List.mem_append.mp hcm with h1 | h2
    · exact hu c h1
    · rcases List.mem_cons.mp h2 with rfl | h3
      · decide
      · exact hp c h3
  have hbytes : ∀ x ∈ strBytes (user ++ ":" ++ pass), x < 256 := by
    intro x hx
    simp only [strBytes, List.mem_map] at hx
    obtain ⟨c, hcm, rfl⟩ := hx
    have := hascii c hcm
    omega
  have hhdr : "Basic " ++ b64encodeStr (user ++ ":" ++ pass) =
      String.mk ('B' :: 'a' :: 's' :: 'i' :: 'c' :: ' ' ::
        b64encodeBytes (strBytes (user ++ ":" ++ pass))) := rfl
  have hsplit : get_authorization_scheme_param
      (some ("Basic " ++ b64encodeStr (user ++ ":" ++ pass))) =
      ("Basic", b64encodeStr (user ++ ":" ++ pass)) := by
    rw [hhdr, split_basic_space _
      (fun c hc => (b64encodeBytes_chars _ hbytes c hc).2)]
    rfl
  have htruthy : headerTruthy
      (some ("Basic " ++ b64encodeStr (user ++ ":" ++ pass))) = true := by
    rw [hhdr]; rfl
  have hdec : b64decode (b64encodeStr (user ++ ":" ++ pass)) =
      some (strBytes (user ++ ":" ++ pass)) :=
    b64decode_encodeBytes _ hbytes
  have hasc2 : ∀ c ∈ user.data ++ ':' :: pass.data, c.toNat < 128 :=
    hdata ▸ hascii
  have hbda : bytesDecodeAscii (strBytes (user ++ ":" ++ pass)) =
      some (user.data ++ ':' :: pass.data) := by
    rw [show strBytes (user ++ ":" ++ pass) =
      (user.data ++ ':' :: pass.data).map Char.toNat from by
        rw [strBytes, hdata]]
    exact bytesDecodeAscii_map _ hasc2
  have hpart : partitionColon (user.data ++ ':' :: pass.data) =
      some (user.data, pass.data) := partitionColon_append _ _ hcol
  simp only [get_http_basic_authorization_credentials]
  rw [if_neg (by
    intro hor
    rcases hor with h1 | h2
    · rw [htruthy] at h1
      exact Bool.noConfusion h1
    · rw [hsplit] at h2
      exact h2 (show strLower "Basic" = "basic" by decide))]
  rw [show (get_authorization_scheme_param
      (some ("Basic " ++ b64encodeStr (user ++ ":" ++ pass)))).2 =
    b64encodeStr (user ++ ":" ++ pass) from by rw [hsplit]]
  simp only [hdec, hbda, hpart]

/-- C5 (counterexample): with `user = "a:b"`, `pass = "c"` — both perfectly
valid Python strings — the decoder splits at the *first* colon and returns
`("a", "b:c")`, not the original `("a:b", "c")`. -/
theorem C5_counterexample :
    get_http_basic_authorization_credentials none true
        (some ("Basic " ++ b64encodeStr ("a:b" ++ ":" ++ "c"))) =
      .ok (some ("a", "b:c")) ∧
      (("a" : String), ("b:c" : String)) ≠ (("a:b" : String), ("c" : String)) := by
  decide

/-- C5 (witness): the amended round-trip applied at `("john", "secret")`. -/
theorem C5_witness :
    get_http_basic_authorization_credentials none true
        (some ("Basic " ++ b64encodeStr ("john" ++ ":" ++ "secret"))) =
      .ok (some ("john", "secret")) :=
  C5_roundtrip_ascii "john" "secret" none true (by decide) (by decide)
    (by decide)
